import Mathlib

/-!
Shallow embedding of `src/price_scraper.py` (class `PriceScraper` and `main`).

Python floats are modelled as rationals (`ℚ`); Python's `round(x, n)`
(round-half-to-even) is modelled by `pyRound`.  Python dicts produced by the
extractor are modelled as structures; the loosely-typed dicts accepted by
`convert_prices` are modelled as structures with `Option` fields, a missing
field standing for a `KeyError` that the per-record `try/except` turns into a
skip.  `datetime.now()` is modelled as an explicit timestamp parameter,
captured once per `convert_prices` call, exactly as the source captures
`timestamp` once at the top of the method.
-/

namespace PriceScraper

/-- The mock exchange-rate table set in `__init__` (`self.exchange_rates`,
lines 34-43): units of each currency per 1 USD. -/
def exchange_rates : List (String × ℚ) :=
  [("USD", 1), ("KES", 150), ("EUR", 85/100), ("GBP", 73/100),
   ("JPY", 110), ("CAD", 125/100), ("AUD", 135/100), ("INR", 75)]

/-- Python `dict.get(key, default)` on an association-list model of a dict. -/
def dictGet (table : List (String × ℚ)) (key : String) (default : ℚ) : ℚ :=
  (table.lookup key).getD default

/-- `get_exchange_rate` (lines 45-75).  `self` is the instance's rate table.
If the currencies are equal it returns 1.0 before any lookup; otherwise it
returns `self.exchange_rates.get(to, 1.0) / self.exchange_rates.get(from, 1.0)`.
The body can raise no exception, so the `except` fallback at line 75 is dead
and the function is total. -/
def get_exchange_rate (self : List (String × ℚ))
    (from_currency to_currency : String) : ℚ :=
  if from_currency = to_currency then 1
  else
    let usd_from := dictGet self from_currency 1
    let usd_to := dictGet self to_currency 1
    usd_to / usd_from

/-- Round-half-to-even to an integer, the tie-breaking rule of Python's
built-in `round`. -/
def roundHalfEven (q : ℚ) : ℤ :=
  let f : ℤ := Int.floor q
  let r : ℚ := q - f
  if r < 1/2 then f
  else if 1/2 < r then f + 1
  else if f % 2 = 0 then f else f + 1

/-- Python `round(q, n)`: round to `n` decimal places, ties to even. -/
def pyRound (q : ℚ) (n : ℕ) : ℚ :=
  (roundHalfEven (q * 10 ^ n) : ℚ) / 10 ^ n

/-- A product dict as built by `scrape_products` (lines 135-141): all five
keys are always present. -/
structure Product where
  name : String
  original_price : ℚ
  original_currency : String
  rating : String
  availability : String
deriving DecidableEq, Repr

/-- A dict handed to `convert_prices`.  `convert_prices` only reads
`original_price` and `original_currency` (lines 175-176); a missing key raises
`KeyError`, caught at line 195, so those two fields are `Option`s.  The
remaining extractor keys are carried along for the `{**product, ...}` spread. -/
structure RawProduct where
  name : Option String
  original_price : Option ℚ
  original_currency : Option String
  rating : Option String
  availability : Option String
deriving DecidableEq, Repr

/-- The dict of line 185-191: the spread `{**product, ...}` keeps every
original key and adds the four conversion keys. -/
structure ConvertedProduct where
  base : RawProduct
  converted_price : ℚ
  target_currency : String
  exchange_rate : ℚ
  conversion_timestamp : String
deriving DecidableEq, Repr

/-- View an extractor-produced dict as a `convert_prices` input: every key is
present. -/
def Product.toRaw (p : Product) : RawProduct :=
  { name := some p.name, original_price := some p.original_price,
    original_currency := some p.original_currency, rating := some p.rating,
    availability := some p.availability }

/-- One iteration of the `convert_prices` loop body (lines 173-197): read the
two fields (a missing one raises and the record is skipped), compute the rate
and the rounded prices, and build the output dict.  `none` is the
`continue` of the `except` branch. -/
def convertOne (self : List (String × ℚ)) (target_currency timestamp : String)
    (product : RawProduct) : Option ConvertedProduct :=
  match product.original_price, product.original_currency with
  | some original_price, some original_currency =>
    let exchange_rate := get_exchange_rate self original_currency target_currency
    let converted_price := original_price * exchange_rate
    some { base := product,
           converted_price := pyRound converted_price 2,
           target_currency := target_currency,
           exchange_rate := pyRound exchange_rate 4,
           conversion_timestamp := timestamp }
  | _, _ => none

/-- `convert_prices` (lines 157-199): one timestamp for the whole batch,
then the per-record loop appending successes in order and skipping failures. -/
def convert_prices (self : List (String × ℚ)) (products : List RawProduct)
    (target_currency timestamp : String) : List ConvertedProduct :=
  products.filterMap (convertOne self target_currency timestamp)

/-- One `article.product_pod` container as `scrape_products` observes it
(lines 109-132).

* `h3`: result of `container.find('h3')`; the inner `Option` is
  `.find('a')` on that tag; the innermost `Option String` is the anchor's
  `title` attribute as read by `.get('title', 'Unknown Product')`.
* `price_color`: text of `container.find('p', class_='price_color')`, `none`
  when no such element matches.  (A class-filtered `find` only matches
  elements that have a class attribute, so a matched element's text is a
  plain string.)
* `star_rating`: class-attribute list of
  `container.find('p', class_='star-rating')`, `none` when absent.
* `availability`: text of `container.find('p', class_='availability')`,
  `none` when absent. -/
structure Container where
  h3 : Option (Option (Option String))
  price_color : Option String
  star_rating : Option (List String)
  availability : Option String
deriving DecidableEq, Repr

/-- Drop leading whitespace characters. -/
def dropSpaces : List Char → List Char
  | [] => []
  | c :: rest => if c.isWhitespace then dropSpaces rest else c :: rest

/-- Model of Python's `str.strip()` with no argument: remove leading and
trailing whitespace. -/
def pyStrip (s : String) : String :=
  ⟨(dropSpaces ((dropSpaces s.data).reverse)).reverse⟩

/-- `leadsWith pat l` is true when `pat` is an initial segment of `l`. -/
def leadsWith : List Char → List Char → Bool
  | [], _ => true
  | _ :: _, [] => false
  | p :: ps, c :: cs => p == c && leadsWith ps cs

/-- Scan `l` left to right, replacing each non-overlapping occurrence of
`pat` by `repl`; `fuel` bounds the number of scan steps (each step consumes
at least one character, so `l.length` is always enough). -/
def replaceFuel (pat repl : List Char) : ℕ → List Char → List Char
  | _, [] => []
  | 0, l => l
  | fuel + 1, c :: rest =>
    if leadsWith pat (c :: rest) then
      repl ++ replaceFuel pat repl fuel (rest.drop (pat.length - 1))
    else
      c :: replaceFuel pat repl fuel rest

/-- Model of Python's `str.replace(pat, repl)` for a non-empty `pat`:
replace every non-overlapping occurrence, scanning left to right. -/
def pyReplace (s pat repl : String) : String :=
  ⟨replaceFuel pat.data repl.data s.data.length s.data⟩

/-- Digit list to a natural number, most significant first. -/
def digitsVal (l : List Char) : ℕ :=
  l.foldl (fun n c => 10 * n + (c.toNat - 48)) 0

/-- Model of Python's `float(s)` on the literals this scraper can meet:
an optional sign, then digits with an optional decimal point
(`"51"`, `"51.77"`, `"51."`, `".77"`).  Anything else — in particular a
string still holding a currency glyph or a thousands-separator comma —
raises `ValueError`, modelled as `none`. -/
def pyFloat (s : String) : Option ℚ :=
  let cs := s.toList
  let body := match cs with
    | '-' :: rest => rest
    | '+' :: rest => rest
    | _ => cs
  let sign : ℚ := match cs with
    | '-' :: _ => -1
    | _ => 1
  let intPart := body.takeWhile Char.isDigit
  let rest := body.dropWhile Char.isDigit
  match rest with
  | [] =>
    if intPart.isEmpty then none else some (sign * digitsVal intPart)
  | '.' :: frac =>
    if frac.all Char.isDigit ∧ ¬(intPart.isEmpty ∧ frac.isEmpty) then
      some (sign * ((digitsVal intPart : ℚ) + digitsVal frac / 10 ^ frac.length))
    else none
  | _ => none

/-- The chained `.replace` calls of line 120.  The file's literals are the
mojibake sequences `"¬£"` (U+00AC U+00A3) and `"‚Ç¨"` (U+201A U+00C7
U+00A8) plus `"$"`; the actual glyphs `£` and `€` are not among them. -/
def clean_price_text (s : String) : String :=
  pyReplace (pyReplace (pyReplace s "¬£" "") "$" "") "‚Ç¨" ""

/-- The `try` body of one loop iteration of `scrape_products`
(lines 109-141).  `none` models an exception reaching the `except` at
line 143, which skips the container:

* `find('h3')` returning `None` makes `.find('a')` raise, and a missing
  anchor makes `.get` raise — either way the record is skipped;
* a present price element whose cleaned text `float` cannot parse raises
  `ValueError` — record skipped; a missing price element falls back to
  `0.0` / `'GBP'`;
* a present rating element whose class list has no second entry makes
  `[1]` raise `IndexError` — record skipped; a missing one falls back to
  `'No rating'`;
* a missing availability element falls back to `'Unknown'`. -/
def extract_product (container : Container) : Option Product :=
  match container.h3 with
  | none => none
  | some none => none
  | some (some title) =>
    let product_name := title.getD "Unknown Product"
    let priceStep : Option (ℚ × String) :=
      match container.price_color with
      | some t =>
        let price_text := pyStrip t
        match pyFloat (clean_price_text price_text) with
        | some v => some (v, "GBP")
        | none => none
      | none => some (0, "GBP")
    match priceStep with
    | none => none
    | some (price_value, original_currency) =>
      let ratingStep : Option String :=
        match container.star_rating with
        | some classes => classes[1]?
        | none => some "No rating"
      match ratingStep with
      | none => none
      | some rating =>
        let availability :=
          match container.availability with
          | some t => pyStrip t
          | none => "Unknown"
        some { name := product_name, original_price := price_value,
               original_currency := original_currency, rating := rating,
               availability := availability }

/-- The `for i, container in enumerate(...)` loop of lines 105-145:
before touching a container the loop breaks once `len(products)` has
reached `max_products`; a skipped container leaves `products` unchanged
and the next container is attempted. -/
def scrape_loop (max_products : ℕ) :
    List Container → List Product → List Product
  | [], products => products
  | container :: rest, products =>
    if max_products ≤ products.length then products
    else
      match extract_product container with
      | some p => scrape_loop max_products rest (products ++ [p])
      | none => scrape_loop max_products rest products

/-- `scrape_products` (lines 77-155).  The fetch/parse collaborator is
injected as `fetch`: `Except.error` is a `requests.RequestException`
(connection error, timeout, bad status via `raise_for_status`), caught at
line 150 where the method returns the empty list; `Except.ok` carries the
parsed `product_pod` containers. -/
def scrape_products (fetch : Except String (List Container))
    (max_products : ℕ) : List Product :=
  match fetch with
  | .error _ => []
  | .ok containers => scrape_loop max_products containers []

/-- The export/display collaborators `main` can invoke after conversion
(lines 409-417). -/
inductive Collaborator where
  | display_table
  | save_to_csv
  | save_to_json
  | plot_prices
deriving DecidableEq, Repr

/-- The currency validation of `main` (lines 382-384): an input not among
the rate-table keys falls back to `'KES'`. -/
def main_target (input : String) : String :=
  if (exchange_rates.lookup input).isSome then input else "KES"

/-- The pipeline portion of `main` after the prompts (lines 396-417),
abstracted to the sequence of export/display collaborators it invokes:
empty extraction returns at line 400 before conversion; empty conversion
returns at line 407 before any display/save/plot call; otherwise all four
collaborators run in order. -/
def main_exports (fetch : Except String (List Container))
    (max_products : ℕ) (target_currency timestamp : String) :
    List Collaborator :=
  let target := main_target target_currency
  let products := scrape_products fetch max_products
  if products.isEmpty then []
  else
    let converted :=
      convert_prices exchange_rates (products.map Product.toRaw) target timestamp
    if converted.isEmpty then []
    else [.display_table, .save_to_csv, .save_to_json, .plot_prices]

/-! ### Helper lemmas -/

/-- A `filterMap` is the `map` over the `filter` of the inputs it keeps, so
it preserves the relative order of the kept inputs. -/
lemma filterMap_eq_map_getD_filter {α β : Type} (f : α → Option β) (d : β)
    (l : List α) :
    l.filterMap f =
      (l.filter fun a => (f a).isSome).map fun a => (f a).getD d := by
  induction l with
  | nil => rfl
  | cons a l ih =>
    cases h : f a <;>
      simp [List.filterMap_cons, List.filter_cons, h, ih]

/-- Every record `convert_prices` emits carries the batch timestamp. -/
lemma conversion_timestamp_of_mem (self : List (String × ℚ))
    (target_currency timestamp : String) {ps : List RawProduct}
    {r : ConvertedProduct} (h : r ∈ convert_prices self ps target_currency timestamp) :
    r.conversion_timestamp = timestamp := by
  rcases List.mem_filterMap.mp h with ⟨p, _, hp⟩
  rcases p with ⟨n, op, oc, rt, av⟩
  cases op with
  | none => simp [convertOne] at hp
  | some P =>
    cases oc with
    | none => simp [convertOne] at hp
    | some C =>
      simp only [convertOne, Option.some_inj] at hp
      subst hp
      rfl

/-- Once the accumulator has reached the cap the loop returns it unchanged. -/
lemma scrape_loop_of_le (m : ℕ) (cs : List Container) (acc : List Product)
    (h : m ≤ acc.length) : scrape_loop m cs acc = acc := by
  cases cs with
  | nil => rfl
  | cons c rest =>
    simp only [scrape_loop]
    rw [if_pos h]

/-- The loop never grows the accumulator beyond the cap. -/
lemma scrape_loop_length_le (m : ℕ) (cs : List Container) :
    ∀ acc : List Product, acc.length ≤ m →
      (scrape_loop m cs acc).length ≤ m := by
  induction cs with
  | nil => intro acc h; exact h
  | cons c rest ih =>
    intro acc h
    by_cases hm : m ≤ acc.length
    · simp only [scrape_loop]; rw [if_pos hm]; exact h
    · simp only [scrape_loop]; rw [if_neg hm]
      cases hx : extract_product c with
      | none => exact ih acc h
      | some p =>
        refine ih (acc ++ [p]) ?_
        have : acc.length < m := Nat.lt_of_not_le hm
        simpa using this

/-- A container the extractor skips leaves the loop state unchanged. -/
lemma scrape_loop_skip (m : ℕ) (c : Container) (cs : List Container)
    (acc : List Product) (h : extract_product c = none) :
    scrape_loop m (c :: cs) acc = scrape_loop m cs acc := by
  by_cases hm : m ≤ acc.length
  · rw [scrape_loop_of_le m (c :: cs) acc hm, scrape_loop_of_le m cs acc hm]
  · simp only [scrape_loop]
    rw [if_neg hm, h]

/-- When every container extracts, the loop output size is exactly the cap
or the number of containers, whichever is reached first. -/
lemma scrape_loop_all_some (m : ℕ) :
    ∀ cs : List Container, (∀ c ∈ cs, (extract_product c).isSome) →
      ∀ acc : List Product, acc.length ≤ m →
        (scrape_loop m cs acc).length = min (acc.length + cs.length) m := by
  intro cs
  induction cs with
  | nil =>
    intro _ acc hle
    simp only [scrape_loop, List.length_nil, Nat.add_zero]
    omega
  | cons c rest ih =>
    intro hall acc hle
    by_cases hm : m ≤ acc.length
    · have hacc : acc.length = m := Nat.le_antisymm hle hm
      simp only [scrape_loop]; rw [if_pos hm]
      simp only [List.length_cons]
      omega
    · obtain ⟨p, hp⟩ :=
        Option.isSome_iff_exists.mp (hall c (List.mem_cons_self c rest))
      simp only [scrape_loop]; rw [if_neg hm, hp]
      have hrec := ih (fun c' hc' => hall c' (List.mem_cons_of_mem _ hc'))
        (acc ++ [p]) (by simpa using Nat.lt_of_not_le hm)
      rw [hrec]
      have hlen : (acc ++ [p]).length = acc.length + 1 := by simp
      rw [hlen]
      simp only [List.length_cons]
      omega

/-- Every record the loop emits is either carried in from the accumulator or
extracted from one of the containers. -/
lemma mem_scrape_loop (m : ℕ) :
    ∀ (cs : List Container) (acc : List Product) (p : Product),
      p ∈ scrape_loop m cs acc →
        p ∈ acc ∨ ∃ c ∈ cs, extract_product c = some p := by
  intro cs
  induction cs with
  | nil => intro acc p h; exact Or.inl h
  | cons c rest ih =>
    intro acc p h
    by_cases hm : m ≤ acc.length
    · rw [scrape_loop_of_le m _ acc hm] at h; exact Or.inl h
    · simp only [scrape_loop] at h
      rw [if_neg hm] at h
      cases hx : extract_product c with
      | none =>
        rw [hx] at h
        rcases ih acc p h with h' | ⟨c', hc', he⟩
        · exact Or.inl h'
        · exact Or.inr ⟨c', List.mem_cons_of_mem _ hc', he⟩
      | some q =>
        rw [hx] at h
        rcases ih (acc ++ [q]) p h with h' | ⟨c', hc', he⟩
        · rcases List.mem_append.mp h' with h'' | h''
          · exact Or.inl h''
          · have : p = q := List.mem_singleton.mp h''
            exact Or.inr ⟨c, List.mem_cons_self c rest, this ▸ hx⟩
        · exact Or.inr ⟨c', List.mem_cons_of_mem _ hc', he⟩

/-- What a successful container extraction guarantees: the currency label is
the constant `'GBP'`, and a missing price element means price `0.0`. -/
lemma extract_product_spec {c : Container} {p : Product}
    (h : extract_product c = some p) :
    p.original_currency = "GBP" ∧ (c.price_color = none → p.original_price = 0) := by
  rcases c with ⟨h3, pc, sr, av⟩
  rcases h3 with _ | h3a
  · simp [extract_product] at h
  rcases h3a with _ | title
  · simp [extract_product] at h
  rcases pc with _ | t
  · rcases sr with _ | classes
    · simp only [extract_product, Option.some_inj] at h
      subst h
      exact ⟨rfl, fun _ => rfl⟩
    · cases hr : classes[1]? with
      | none => simp [extract_product, hr] at h
      | some r =>
        simp only [extract_product, hr, Option.some_inj] at h
        subst h
        exact ⟨rfl, fun _ => rfl⟩
  · cases hf : pyFloat (clean_price_text (pyStrip t)) with
    | none => simp [extract_product, hf] at h
    | some v =>
      rcases sr with _ | classes
      · simp only [extract_product, hf, Option.some_inj] at h
        subst h
        exact ⟨rfl, fun hn => by cases hn⟩
      · cases hr : classes[1]? with
        | none => simp [extract_product, hf, hr] at h
        | some r =>
          simp only [extract_product, hf, hr, Option.some_inj] at h
          subst h
          exact ⟨rfl, fun hn => by cases hn⟩

/-! ### Claim theorems -/

/-- C1: for every record with `original_price = P` and
`original_currency = C`, `convert_prices` with target `T` produces an output
record whose `converted_price` is `round(P * getRate(C, T), 2)`, whose
`exchange_rate` field is `getRate(C, T)` rounded to 4 decimal places, and
whose `target_currency` is `T`. -/
theorem C1_convert_prices_record_fields (self : List (String × ℚ))
    (target_currency timestamp : String) (products : List RawProduct)
    (p : RawProduct) (P : ℚ) (C : String)
    (hmem : p ∈ products)
    (hP : p.original_price = some P) (hC : p.original_currency = some C) :
    ∃ r ∈ convert_prices self products target_currency timestamp,
      r.converted_price = pyRound (P * get_exchange_rate self C target_currency) 2 ∧
      r.exchange_rate = pyRound (get_exchange_rate self C target_currency) 4 ∧
      r.target_currency = target_currency := by
  refine ⟨{ base := p,
            converted_price :=
              pyRound (P * get_exchange_rate self C target_currency) 2,
            target_currency := target_currency,
            exchange_rate := pyRound (get_exchange_rate self C target_currency) 4,
            conversion_timestamp := timestamp }, ?_, rfl, rfl, rfl⟩
  exact List.mem_filterMap.mpr ⟨p, hmem, by simp [convertOne, hP, hC]⟩

/-- Witness for C1 at a concrete record: price `51.77`, currency `GBP`,
target `KES`. -/
theorem C1_witness :
    ∃ r ∈ convert_prices exchange_rates
        [{ name := some "Book", original_price := some (5177/100),
           original_currency := some "GBP", rating := some "Three",
           availability := some "In stock" }] "KES" "2024-01-01T00:00:00",
      r.converted_price =
        pyRound ((5177/100) * get_exchange_rate exchange_rates "GBP" "KES") 2 ∧
      r.exchange_rate =
        pyRound (get_exchange_rate exchange_rates "GBP" "KES") 4 ∧
      r.target_currency = "KES" :=
  C1_convert_prices_record_fields exchange_rates "KES" "2024-01-01T00:00:00"
    _ _ (5177/100) "GBP" (List.mem_singleton.mpr rfl) rfl rfl

/-- C2: for distinct currency codes the rate is the ratio of the `to` and
`from` table entries, a missing code contributing the default `1.0` for its
side; the function is total by construction, so a conversion always gets a
result. -/
theorem C2_cross_rate (self : List (String × ℚ))
    (from_currency to_currency : String)
    (h : from_currency ≠ to_currency) :
    get_exchange_rate self from_currency to_currency =
      dictGet self to_currency 1 / dictGet self from_currency 1 := by
  simp [get_exchange_rate, h]

/-- Witness for C2 at `GBP → KES` on the fixed table. -/
theorem C2_witness :
    get_exchange_rate exchange_rates "GBP" "KES" =
      dictGet exchange_rates "KES" 1 / dictGet exchange_rates "GBP" 1 :=
  C2_cross_rate exchange_rates "GBP" "KES" (by decide)

/-- C3: `getRate(x, x)` is exactly `1.0` for every currency code, whether or
not it is in the table — the equality short-circuit fires before any
lookup. -/
theorem C3_same_currency_unit_rate (self : List (String × ℚ)) (x : String) :
    get_exchange_rate self x x = 1 := by
  simp [get_exchange_rate]

/-- C4: a batch of `N` records converts to at most `N` records, all sharing
the single batch timestamp; the output is the in-order image of the
convertible inputs, the skipped ones simply omitted. -/
theorem C4_batch_shape (self : List (String × ℚ)) (ps : List RawProduct)
    (target_currency timestamp : String) :
    (convert_prices self ps target_currency timestamp).length ≤ ps.length ∧
    (∀ r ∈ convert_prices self ps target_currency timestamp,
       r.conversion_timestamp = timestamp) ∧
    convert_prices self ps target_currency timestamp =
      (ps.filter fun p => (convertOne self target_currency timestamp p).isSome).map
        (fun p => (convertOne self target_currency timestamp p).getD
          { base := ⟨none, none, none, none, none⟩, converted_price := 0,
            target_currency := "", exchange_rate := 0,
            conversion_timestamp := "" }) ∧
    List.Sublist
      (ps.filter fun p => (convertOne self target_currency timestamp p).isSome) ps := by
  refine ⟨List.length_filterMap_le _ _, ?_, ?_, List.filter_sublist _⟩
  · intro r hr
    exact conversion_timestamp_of_mem self target_currency timestamp hr
  · exact filterMap_eq_map_getD_filter
      (convertOne self target_currency timestamp)
      { base := ⟨none, none, none, none, none⟩, converted_price := 0,
        target_currency := "", exchange_rate := 0, conversion_timestamp := "" }
      ps

/-- Witness for C4 on a singleton batch. -/
theorem C4_witness :
    (convert_prices exchange_rates
        [{ name := some "Sample", original_price := some 5,
           original_currency := some "GBP", rating := some "Three",
           availability := some "In stock" }] "EUR" "t0").length ≤ 1 ∧
    ConvertedProduct.conversion_timestamp
      { base := { name := some "Sample", original_price := some 5,
                  original_currency := some "GBP", rating := some "Three",
                  availability := some "In stock" },
        converted_price := pyRound (5 * get_exchange_rate exchange_rates "GBP" "EUR") 2,
        target_currency := "EUR",
        exchange_rate := pyRound (get_exchange_rate exchange_rates "GBP" "EUR") 4,
        conversion_timestamp := "t0" } = "t0" :=
  ⟨(C4_batch_shape exchange_rates _ "EUR" "t0").1,
   (C4_batch_shape exchange_rates
      [{ name := some "Sample", original_price := some 5,
         original_currency := some "GBP", rating := some "Three",
         availability := some "In stock" }] "EUR" "t0").2.1 _
     (by simp [convert_prices, convertOne])⟩

/-- C5 counterexample: a container whose price text is `"1,000"` — numeric up
to its thousands separator, which the `replace` chain does not remove — is
skipped entirely (`float` raises `ValueError`), not produced with
`original_price = 0.0` as the claim states. -/
theorem C5_counterexample :
    extract_product
      { h3 := some (some (some "Book")), price_color := some "1,000",
        star_rating := some ["star-rating", "Three"],
        availability := some "In stock" } = none := by
  decide

/-- C5 amended: the `replace` chain strips only the literal substrings
`"¬£"`, `"$"`, `"‚Ç¨"` — not thousands separators; a container whose price
text fails numeric parsing after the stripping is skipped entirely, and
`original_price` defaults to `0.0` only when the price element itself is
missing. -/
theorem C5_amended_price_normalization :
    (∀ (c : Container) (s : String), c.price_color = some s →
       pyFloat (clean_price_text (pyStrip s)) = none →
       extract_product c = none) ∧
    (∀ (c : Container) (p : Product), extract_product c = some p →
       c.price_color = none →
       p.original_price = 0 ∧ p.original_currency = "GBP") ∧
    clean_price_text "1,000" = "1,000" := by
  refine ⟨?_, ?_, by decide⟩
  · rintro ⟨h3, pc, sr, av⟩ s hpc hparse
    cases hpc
    rcases h3 with _ | h3a
    · simp [extract_product]
    rcases h3a with _ | title
    · simp [extract_product]
    · simp [extract_product, hparse]
  · intro c p h hpc
    exact ⟨(extract_product_spec h).2 hpc, (extract_product_spec h).1⟩

/-- Witness for the amended C5: a non-numeric price text skips the record;
a missing price element yields price `0.0` and currency `GBP`. -/
theorem C5_amended_witness :
    extract_product
      { h3 := some (some (some "Book")), price_color := some "abc",
        star_rating := none, availability := none } = none ∧
    (Product.original_price
        { name := "B", original_price := 0, original_currency := "GBP",
          rating := "No rating", availability := "Unknown" } = 0 ∧
     Product.original_currency
        { name := "B", original_price := 0, original_currency := "GBP",
          rating := "No rating", availability := "Unknown" } = "GBP") :=
  ⟨C5_amended_price_normalization.1 _ "abc" rfl (by decide),
   C5_amended_price_normalization.2.1
     { h3 := some (some (some "B")), price_color := none,
       star_rating := none, availability := none }
     _ (by simp [extract_product]) rfl⟩

/-- C6 counterexample: a container whose `h3`/anchor structure is missing —
only the name field fails — has its whole record aborted: no record with a
sentinel name is produced, even though price, rating and availability are all
well-formed. -/
theorem C6_counterexample :
    extract_product
      { h3 := none, price_color := some "5.00",
        star_rating := some ["star-rating", "Three"],
        availability := some "In stock" } = none := by
  decide

/-- C6 amended: price, rating and availability do fall back independently
when their elements are absent (and a missing `title` attribute falls back to
`'Unknown Product'`), but a container with no `h3` tag, or an `h3` with no
anchor, raises while extracting the name and the whole record is skipped. -/
theorem C6_amended_field_fallbacks :
    (∀ title : Option String,
       extract_product
         { h3 := some (some title), price_color := none,
           star_rating := none, availability := none } =
       some { name := title.getD "Unknown Product", original_price := 0,
              original_currency := "GBP", rating := "No rating",
              availability := "Unknown" }) ∧
    (∀ c : Container, c.h3 = none → extract_product c = none) ∧
    (∀ c : Container, c.h3 = some none → extract_product c = none) := by
  refine ⟨?_, ?_, ?_⟩
  · intro title
    simp [extract_product]
  · rintro ⟨h3, pc, sr, av⟩ h
    cases h
    simp [extract_product]
  · rintro ⟨h3, pc, sr, av⟩ h
    cases h
    simp [extract_product]

/-- Witness for the amended C6 at concrete containers. -/
theorem C6_amended_witness :
    extract_product
      { h3 := some (some (some "T")), price_color := none,
        star_rating := none, availability := none } =
      some { name := "T", original_price := 0, original_currency := "GBP",
             rating := "No rating", availability := "Unknown" } ∧
    extract_product
      { h3 := none, price_color := none, star_rating := none,
        availability := none } = none ∧
    extract_product
      { h3 := some none, price_color := none, star_rating := none,
        availability := none } = none :=
  ⟨C6_amended_field_fallbacks.1 (some "T"),
   C6_amended_field_fallbacks.2.1
     { h3 := none, price_color := none, star_rating := none,
       availability := none } rfl,
   C6_amended_field_fallbacks.2.2
     { h3 := some none, price_color := none, star_rating := none,
       availability := none } rfl⟩

/-- C7: extraction never produces more than `max_products` records; the
limit counts produced records, not visited containers — a skipped container
leaves the result exactly as if it had not been there, the next container
still being attempted — and when every container is well-formed the output
size is the full `min` of the container count and the requested maximum. -/
theorem C7_max_products_limit (max_products : ℕ) :
    (∀ containers : List Container,
       (scrape_products (Except.ok containers) max_products).length ≤ max_products) ∧
    (∀ (c : Container) (containers : List Container), extract_product c = none →
       scrape_products (Except.ok (c :: containers)) max_products =
         scrape_products (Except.ok containers) max_products) ∧
    (∀ containers : List Container,
       (∀ c ∈ containers, (extract_product c).isSome) →
       (scrape_products (Except.ok containers) max_products).length =
         min containers.length max_products) := by
  refine ⟨?_, ?_, ?_⟩
  · intro containers
    exact scrape_loop_length_le max_products containers [] (Nat.zero_le _)
  · intro c containers h
    exact scrape_loop_skip max_products c containers [] h
  · intro containers h
    have := scrape_loop_all_some max_products containers h [] (Nat.zero_le _)
    simpa using this

/-- Witness for C7: a malformed container is skipped with the next one still
attempted, and a well-formed singleton fills the quota. -/
theorem C7_witness :
    (scrape_products
       (Except.ok
         [{ h3 := none, price_color := none, star_rating := none,
            availability := none },
          { h3 := some (some (some "B")), price_color := none,
            star_rating := none, availability := none }]) 1).length ≤ 1 ∧
    scrape_products
      (Except.ok
        [({ h3 := none, price_color := none, star_rating := none,
            availability := none } : Container)]) 5 =
      scrape_products (Except.ok ([] : List Container)) 5 ∧
    (scrape_products
       (Except.ok
         [({ h3 := some (some (some "B")), price_color := none,
             star_rating := none, availability := none } : Container)]) 5).length =
      min
        [({ h3 := some (some (some "B")), price_color := none,
            star_rating := none, availability := none } : Container)].length 5 :=
  ⟨(C7_max_products_limit 1).1 _,
   (C7_max_products_limit 5).2.1 _ [] (by decide),
   (C7_max_products_limit 5).2.2 _ (by decide)⟩

/-- C8: whenever extraction or conversion yields zero records, `main` halts
before the export stage and invokes no display/save/plot collaborator;
conversely, any run that does invoke a collaborator had a non-empty
extraction and a non-empty conversion, and then runs exactly the four
collaborators in order. -/
theorem C8_exports_only_after_nonempty_conversion
    (fetch : Except String (List Container)) (max_products : ℕ)
    (target_currency timestamp : String) :
    (scrape_products fetch max_products = [] →
       main_exports fetch max_products target_currency timestamp = []) ∧
    (convert_prices exchange_rates
        ((scrape_products fetch max_products).map Product.toRaw)
        (main_target target_currency) timestamp = [] →
       main_exports fetch max_products target_currency timestamp = []) ∧
    (main_exports fetch max_products target_currency timestamp ≠ [] →
       scrape_products fetch max_products ≠ [] ∧
       convert_prices exchange_rates
         ((scrape_products fetch max_products).map Product.toRaw)
         (main_target target_currency) timestamp ≠ [] ∧
       main_exports fetch max_products target_currency timestamp =
         [Collaborator.display_table, Collaborator.save_to_csv,
          Collaborator.save_to_json, Collaborator.plot_prices]) := by
  refine ⟨?_, ?_, ?_⟩
  · intro h
    simp [main_exports, h]
  · intro h
    by_cases hp : scrape_products fetch max_products = []
    · simp [main_exports, hp]
    · simp [main_exports, List.isEmpty_iff, hp, h]
  · intro hne
    by_cases hp : scrape_products fetch max_products = []
    · exact absurd (by simp [main_exports, hp]) hne
    · by_cases hc : convert_prices exchange_rates
        ((scrape_products fetch max_products).map Product.toRaw)
        (main_target target_currency) timestamp = []
      · exact absurd (by simp [main_exports, List.isEmpty_iff, hp, hc]) hne
      · exact ⟨hp, hc, by simp [main_exports, List.isEmpty_iff, hp, hc]⟩

/-- Witness for C8: a transport failure and a zero-container page invoke no
collaborator; a well-formed page invokes all four. -/
theorem C8_witness :
    main_exports (Except.error "timeout") 10 "KES" "t0" = [] ∧
    main_exports (Except.ok []) 10 "KES" "t0" = [] ∧
    main_exports
      (Except.ok
        [({ h3 := some (some (some "B")), price_color := none,
            star_rating := none, availability := none } : Container)])
      10 "KES" "t0" =
      [Collaborator.display_table, Collaborator.save_to_csv,
       Collaborator.save_to_json, Collaborator.plot_prices] :=
  ⟨(C8_exports_only_after_nonempty_conversion
      (Except.error "timeout") 10 "KES" "t0").1 rfl,
   (C8_exports_only_after_nonempty_conversion
      (Except.ok []) 10 "KES" "t0").2.1 rfl,
   ((C8_exports_only_after_nonempty_conversion
      (Except.ok
        [({ h3 := some (some (some "B")), price_color := none,
            star_rating := none, availability := none } : Container)])
      10 "KES" "t0").2.2 (by decide)).2.2⟩

/-- C9 counterexample: a transport failure and a zero-container page give the
caller the very same outcome — `scrape_products` returns the identical empty
list in both runs and `main` behaves identically on them — so the failure is
not surfaced to the caller as a distinct outcome. -/
theorem C9_counterexample :
    scrape_products (Except.error "timeout") 10 =
      scrape_products (Except.ok []) 10 ∧
    main_exports (Except.error "timeout") 10 "KES" "t0" =
      main_exports (Except.ok []) 10 "KES" "t0" :=
  ⟨rfl, rfl⟩

/-- C9 amended: on a transport failure the pipeline does halt at the fetching
stage with no records and no exports, but the `RequestException` is caught
inside `scrape_products`, which returns the same empty list as a
zero-container extraction; the caller cannot distinguish the two outcomes —
only the printed log line differs. -/
theorem C9_amended_transport_failure (e : String) (max_products : ℕ) :
    scrape_products (Except.error e) max_products = [] ∧
    ∀ target_currency timestamp : String,
      main_exports (Except.error e) max_products target_currency timestamp = [] := by
  refine ⟨rfl, fun target_currency timestamp => ?_⟩
  simp [main_exports, scrape_products]

/-- C10: every record extraction produces carries
`original_currency = 'GBP'` unconditionally — both branches of the price
extraction set the same constant, whatever glyph the price text held and even
when the price element is missing. -/
theorem C10_currency_constant (fetch : Except String (List Container))
    (max_products : ℕ) (p : Product)
    (h : p ∈ scrape_products fetch max_products) :
    p.original_currency = "GBP" := by
  cases fetch with
  | error e => simp [scrape_products] at h
  | ok containers =>
    simp only [scrape_products] at h
    rcases mem_scrape_loop max_products containers [] p h with h' | ⟨c, _, he⟩
    · simp at h'
    · exact (extract_product_spec he).1

/-- Witness for C10 at a concrete scraped record. -/
theorem C10_witness :
    Product.original_currency
      { name := "B", original_price := 0, original_currency := "GBP",
        rating := "No rating", availability := "Unknown" } = "GBP" :=
  C10_currency_constant
    (Except.ok
      [({ h3 := some (some (some "B")), price_color := none,
          star_rating := none, availability := none } : Container)]) 10 _
    (by simp [scrape_products, scrape_loop, extract_product])

end PriceScraper
